import Mathlib

/-!
Shallow embedding of the guest segmentation and metrics recalculation
subsystem of the chinor-crm-backend repository.

Embedded source files:
- `app/services/segmentation.py` (`calc_segment`)
- `app/services/guest_metrics.py` (`_get_segment_thresholds`,
  `recalc_guest_metrics_from_bookings`)
- `app/api/settings.py` (`recalc_segments`, the bulk reconciler)
- `app/api/guests.py` (`add_guest_visit`)

Conventions of the embedding:
- Timestamps are modelled as integers (`Int`); the timezone normalisation in
  `recalc_guest_metrics_from_bookings` (attaching UTC to naive datetimes) is
  identity under this abstraction.
- Segment labels are the literal strings returned by the Python code
  (`"Новичок"`, `"Постоянный"`, `"VIP"`).
- A stored settings value, as consumed by the threshold readers, is abstracted
  by its observable behaviour in the Python code path
  `if by_key.get(key): try: max(0, int(value.strip())) except: pass`:
  either the key is missing / its value falsy (`None` or `""`), or the value is
  present but `int(...)` raises, or the value parses to an integer `n`.
- Database state is a record of lists of rows; SQLAlchemy's in-place mutation
  of fetched ORM objects followed by commit is modelled as producing the new
  row lists.  Row order is preserved (mutation never reorders a table).
- `guests.confirmed_bookings_count` exists as a database column (migration
  `20260208_add_guest_confirmed_bookings_count.py`) but is NOT mapped on the
  `Guest` ORM model in `app/db/models.py`; it is carried here as a plain field
  so that frame properties about it can be stated.  No embedded operation can
  write it, exactly as no application code can.
-/

/-- Result of reading one stored settings value through the Python pattern
`if by_key.get(key): try: n = max(0, int(value.strip())) except ...: pass`.
`absent` covers a missing key and a falsy value (`None`, `""`);
`invalid` covers a present, truthy value on which `int(...)` raises;
`num n` covers a present value parsing to the integer `n`. -/
inductive RawVal where
  | absent : RawVal
  | invalid : RawVal
  | num : Int → RawVal
deriving DecidableEq, Repr

/-- The two segmentation threshold rows of the `settings` table
(keys `segment_regular_threshold` and `segment_vip_threshold`). -/
structure ThresholdSettings where
  regular_raw : RawVal
  vip_raw : RawVal
deriving DecidableEq, Repr

/-- One guest row, restricted to the columns the core reads or writes, plus
`phone`/`name` as representatives of the untouched columns and
`confirmed_bookings_count` as the unmapped database column (see header). -/
structure Guest where
  id : Int
  phone : String
  name : Option String
  visits_count : Int
  confirmed_bookings_count : Int
  segment : String
  last_visit_at : Option Int
  updated_at : Option Int
  deleted_at : Option Int
deriving DecidableEq, Repr

/-- One booking row, restricted to the columns the core reads. -/
structure Booking where
  id : Int
  guest_id : Int
  status : String
  booking_time : Int
deriving DecidableEq, Repr

/-- One visit row (`app/db/models.py: Visit`); the autoincrement surrogate id
is omitted.  `add_guest_visit` inserts such a row and counts rows per guest. -/
structure Visit where
  booking_id : Option Int
  guest_id : Int
  arrived_at : Int
  left_at : Option Int
  revenue : Option Int
  admin_notes : Option String
  created_at : Option Int
deriving DecidableEq, Repr

/-- The database state visible to the core. -/
structure DB where
  guests : List Guest
  bookings : List Booking
  visits : List Visit
  settings : ThresholdSettings
deriving DecidableEq, Repr

/-- `app/services/segmentation.py: calc_segment`.  Defensive threshold repair
followed by the two comparisons; returns the literal labels of the source. -/
def calc_segment (visits_count regular_threshold vip_threshold : Int) : String :=
  let vip := if vip_threshold ≤ regular_threshold then regular_threshold + 1
             else vip_threshold
  if visits_count ≥ vip then "VIP"
  else if visits_count ≥ regular_threshold then "Постоянный"
  else "Новичок"

/-- One threshold read inside `_get_segment_thresholds`: keep the default on a
missing/falsy or unparsable stored value, else clamp the parsed integer at 0
(`max(0, int(value.strip()))`). -/
def parse_threshold (v : RawVal) (default : Int) : Int :=
  match v with
  | .absent => default
  | .invalid => default
  | .num n => max 0 n

/-- `app/services/guest_metrics.py: _get_segment_thresholds` (the copies in
`app/api/settings.py` and `app/api/guests.py` have the same observable
behaviour): defaults 5 and 10, per-value parsing, then the repair
`if vip <= reg: vip = reg + 1`. -/
def get_segment_thresholds (s : ThresholdSettings) : Int × Int :=
  let reg := parse_threshold s.regular_raw 5
  let vip := parse_threshold s.vip_raw 10
  if vip ≤ reg then (reg, reg + 1) else (reg, vip)

/-- The confirmed bookings of a guest: both queries in
`recalc_guest_metrics_from_bookings` filter on
`Booking.guest_id == guest_id, Booking.status == "confirmed"`. -/
def confirmedBookings (db : DB) (guest_id : Int) : List Booking :=
  db.bookings.filter (fun b => b.guest_id == guest_id && b.status == "confirmed")

/-- The single-guest field update performed by
`recalc_guest_metrics_from_bookings` once the guest row was found. -/
def recalcUpdate (confirmed_count : Int) (last_booking_time : Option Int)
    (reg vip : Int) (now : Int) (g : Guest) : Guest :=
  { g with
    visits_count := confirmed_count
    updated_at := some now
    last_visit_at := last_booking_time
    segment := calc_segment confirmed_count reg vip }

/-- `app/services/guest_metrics.py: recalc_guest_metrics_from_bookings`.
Counts the guest's confirmed bookings, takes the maximum confirmed
`booking_time` (`None` on zero rows, like SQL `max`), looks up the guest
(`one_or_none`; guest ids are a unique primary key), returns the state
unchanged if the guest is missing, otherwise overwrites `visits_count`,
`updated_at`, `last_visit_at` and `segment` as in the source.  `now` stands
for `datetime.now(timezone.utc)`. -/
def recalc_guest_metrics_from_bookings (db : DB) (guest_id : Int) (now : Int) :
    DB :=
  let confirmed_count : Int := (confirmedBookings db guest_id).length
  let last_booking_time : Option Int :=
    ((confirmedBookings db guest_id).map Booking.booking_time).max?
  if (db.guests.find? (fun g => g.id == guest_id)).isSome then
    let rv := get_segment_thresholds db.settings
    { db with
      guests := db.guests.map (fun g =>
        if g.id == guest_id then
          recalcUpdate confirmed_count last_booking_time rv.1 rv.2 now g
        else g) }
  else db

/-- Python `g.segment or "Новичок"` on the non-nullable string column:
the empty string is falsy. -/
def segmentOrDefault (s : String) : String :=
  if s == "" then "Новичок" else s

/-- Python `g.visits_count or 0` on the non-nullable integer column:
`0` is falsy, every other integer truthy; either way the value itself. -/
def visitsOrZero (n : Int) : Int :=
  if n == 0 then 0 else n

/-- The per-guest body of the loop in `app/api/settings.py: recalc_segments`:
recompute the segment from the stored `visits_count`; if it differs from the
stored segment (with Python `or`-defaulting), overwrite it and flag the guest
as updated. -/
def reconcileStep (reg vip : Int) (g : Guest) : Guest × Bool :=
  let new_seg := calc_segment (visitsOrZero g.visits_count) reg vip
  if (segmentOrDefault g.segment) ≠ new_seg then
    ({ g with segment := new_seg }, true)
  else (g, false)

/-- Result of the bulk reconciler: the committed state and the response body
`{"total": len(guests), "updated": updated}`. -/
structure ReconcileResult where
  db : DB
  total : Nat
  updated : Nat
deriving DecidableEq, Repr

/-- `app/api/settings.py: recalc_segments` (the bulk segment reconciler).
Reads the thresholds, selects the guests with `deleted_at IS NULL`, applies
`reconcileStep` to each selected guest in place, and reports how many guests
were examined and how many changed. -/
def recalc_segments (db : DB) : ReconcileResult :=
  let rv := get_segment_thresholds db.settings
  { db := { db with
      guests := db.guests.map (fun g =>
        if g.deleted_at.isNone then (reconcileStep rv.1 rv.2 g).1 else g) }
    total := (db.guests.filter (fun g => g.deleted_at.isNone)).length
    updated := (db.guests.filter (fun g =>
      g.deleted_at.isNone && (reconcileStep rv.1 rv.2 g).2)).length }

/-- `app/api/guests.py: add_guest_visit`.  404 (`none`) when the guest is
missing or soft-deleted; otherwise inserts a `Visit` row, recounts the
guest's visit rows, and overwrites `visits_count`, `last_visit_at`,
`updated_at` and `segment` as in the source. -/
def add_guest_visit (db : DB) (guest_id : Int) (now : Int) : Option DB :=
  match db.guests.find? (fun g => g.id == guest_id) with
  | none => none
  | some g =>
    if g.deleted_at.isSome then none
    else
      let visit : Visit :=
        { booking_id := none, guest_id := guest_id, arrived_at := now
          left_at := none, revenue := none, admin_notes := none
          created_at := some now }
      let visits' := db.visits ++ [visit]
      let cnt : Int :=
        (visits'.filter (fun v => v.guest_id == guest_id)).length
      let rv := get_segment_thresholds db.settings
      some { db with
        visits := visits'
        guests := db.guests.map (fun g =>
          if g.id == guest_id then
            { g with
              visits_count := cnt
              last_visit_at := some now
              updated_at := some now
              segment := calc_segment cnt rv.1 rv.2 }
          else g) }

/-! ## Helper lemmas -/

/-- `calc_segment` as a two-way comparison against the repaired VIP
threshold. -/
theorem calc_segment_eq_ite (v reg vip : Int) :
    calc_segment v reg vip =
      if (if vip ≤ reg then reg + 1 else vip) ≤ v then "VIP"
      else if reg ≤ v then "Постоянный" else "Новичок" := by
  simp only [calc_segment, ge_iff_le]

/-- The classifier never returns the empty string. -/
theorem calc_segment_ne_empty (v reg vip : Int) : calc_segment v reg vip ≠ "" := by
  rw [calc_segment_eq_ite]
  split_ifs <;> decide

/-! ## Claims -/

/-- C2: `calc_segment` first repairs the threshold pair (if `vip ≤ regular`
then `vip` becomes `regular + 1`), then returns VIP when `v` reaches the
repaired VIP threshold, else Regular when `v` reaches the regular threshold,
else New; with thresholds (5, 10): 4 → New, 5 → Regular, 10 → VIP.  The
function is total and pure (it is a Lean function on `Int`). -/
theorem C2_calc_segment_classification :
    (∀ v reg vip : Int,
      (calc_segment v reg vip = "VIP" ↔
        (if vip ≤ reg then reg + 1 else vip) ≤ v) ∧
      (calc_segment v reg vip = "Постоянный" ↔
        reg ≤ v ∧ v < (if vip ≤ reg then reg + 1 else vip)) ∧
      (calc_segment v reg vip = "Новичок" ↔ v < reg)) ∧
    calc_segment 4 5 10 = "Новичок" ∧
    calc_segment 5 5 10 = "Постоянный" ∧
    calc_segment 10 5 10 = "VIP" := by
  refine ⟨fun v reg vip => ?_, by rfl, by rfl, by rfl⟩
  rw [calc_segment_eq_ite]
  rcases le_or_lt vip reg with hr | hr
  · rw [if_pos hr]
    split_ifs with h1 h2 <;>
      refine ⟨?_, ?_, ?_⟩ <;>
      first
        | exact iff_of_true rfl (by omega)
        | exact iff_of_false (by decide) (by omega)
  · rw [if_neg (not_le.mpr hr)]
    split_ifs with h1 h2 <;>
      refine ⟨?_, ?_, ?_⟩ <;>
      first
        | exact iff_of_true rfl (by omega)
        | exact iff_of_false (by decide) (by omega)

/-- C3: the threshold reader is a total function (so it never raises): a
missing/empty stored value and a non-numeric stored value each fall back to
the default (5 regular, 10 VIP); the regular component is exactly the parsed
regular value; the returned pair always satisfies `vip > regular` via the
repair `vip = regular + 1` applied when `vip ≤ regular`; stored (8, 3) yields
(8, 9), under which a visit count of 9 classifies as VIP. -/
theorem C3_get_thresholds_total_and_repaired :
    (∀ s : ThresholdSettings,
      (get_segment_thresholds s).1 < (get_segment_thresholds s).2 ∧
      (get_segment_thresholds s).1 = parse_threshold s.regular_raw 5 ∧
      (s.regular_raw = RawVal.absent ∨ s.regular_raw = RawVal.invalid →
        (get_segment_thresholds s).1 = 5) ∧
      (s.vip_raw = RawVal.absent ∨ s.vip_raw = RawVal.invalid →
        (get_segment_thresholds s).2 =
          if (10 : Int) ≤ parse_threshold s.regular_raw 5
          then parse_threshold s.regular_raw 5 + 1 else 10) ∧
      (get_segment_thresholds s).2 =
        (if parse_threshold s.vip_raw 10 ≤ parse_threshold s.regular_raw 5
         then parse_threshold s.regular_raw 5 + 1
         else parse_threshold s.vip_raw 10)) ∧
    get_segment_thresholds ⟨RawVal.num 8, RawVal.num 3⟩ = (8, 9) ∧
    calc_segment 9 8 9 = "VIP" := by
  refine ⟨fun s => ?_, by rfl, by rfl⟩
  obtain ⟨rr, vr⟩ := s
  refine ⟨?_, ?_, ?_, ?_, ?_⟩
  · simp only [get_segment_thresholds]
    generalize parse_threshold rr 5 = a
    generalize parse_threshold vr 10 = b
    split_ifs with h
    · exact lt_add_one a
    · exact not_le.mp h
  · simp only [get_segment_thresholds]
    split_ifs with h <;> rfl
  · rintro (rfl | rfl) <;>
      simp only [get_segment_thresholds, parse_threshold] <;>
      split_ifs with h <;> rfl
  · rintro (rfl | rfl) <;>
      simp only [get_segment_thresholds, parse_threshold] <;>
      split_ifs with h <;> rfl
  · simp only [get_segment_thresholds]
    split_ifs with h <;> rfl

/-- Witness for C3 at the concrete store with a missing regular value and an
unparsable VIP value. -/
theorem C3_get_thresholds_total_and_repaired_witness :
    (get_segment_thresholds ⟨RawVal.absent, RawVal.invalid⟩).1 = 5 ∧
    (get_segment_thresholds ⟨RawVal.absent, RawVal.invalid⟩).2 =
      if (10 : Int) ≤ parse_threshold RawVal.absent 5
      then parse_threshold RawVal.absent 5 + 1 else 10 := by
  have h := (C3_get_thresholds_total_and_repaired.1
    ⟨RawVal.absent, RawVal.invalid⟩)
  exact ⟨h.2.2.1 (Or.inl rfl), h.2.2.2.1 (Or.inr rfl)⟩

/-- If the guest at index `i` has the looked-up id, `recalc_guest_metrics_from_bookings`
replaces exactly that row by `recalcUpdate` applied to the recomputed metrics. -/
theorem recalc_getElem?_eq (db : DB) (gid now : Int) (i : Nat) (g : Guest)
    (hg : db.guests[i]? = some g) (hid : g.id = gid) :
    (recalc_guest_metrics_from_bookings db gid now).guests[i]? =
      some (recalcUpdate ((confirmedBookings db gid).length)
        (((confirmedBookings db gid).map Booking.booking_time).max?)
        (get_segment_thresholds db.settings).1
        (get_segment_thresholds db.settings).2 now g) := by
  have hmem : g ∈ db.guests := List.getElem?_mem hg
  have hfind : (db.guests.find? (fun g => g.id == gid)).isSome :=
    List.find?_isSome.mpr ⟨g, hmem, by simp [hid]⟩
  simp only [recalc_guest_metrics_from_bookings, hfind, if_true,
    List.getElem?_map, hg, Option.map_some]
  simp [hid]

/-- C1: for every existing guest, after recalculation the guest's
`visits_count` equals its confirmed-booking count, `last_visit_at` equals the
maximum `booking_time` among those confirmed bookings (`none` when there are
zero of them), and `segment` equals the classifier applied to the confirmed
count under the current thresholds (Policy A). -/
theorem C1_recalc_policyA (db : DB) (gid now : Int) (i : Nat) (g : Guest)
    (hg : db.guests[i]? = some g) (hid : g.id = gid) :
    ∃ g', (recalc_guest_metrics_from_bookings db gid now).guests[i]? = some g' ∧
      g'.visits_count = ((confirmedBookings db gid).length : Int) ∧
      g'.last_visit_at =
        ((confirmedBookings db gid).map Booking.booking_time).max? ∧
      ((confirmedBookings db gid).length = 0 → g'.last_visit_at = none) ∧
      g'.segment = calc_segment ((confirmedBookings db gid).length : Int)
        (get_segment_thresholds db.settings).1
        (get_segment_thresholds db.settings).2 := by
  refine ⟨_, recalc_getElem?_eq db gid now i g hg hid, rfl, rfl, ?_, rfl⟩
  intro h0
  have hnil : confirmedBookings db gid = [] := List.length_eq_zero.mp h0
  simp [recalcUpdate, hnil]

/-- A guest row with three confirmed bookings (max time 30), one canceled
booking, and an unrelated confirmed booking of another guest. -/
def sampleGuest : Guest :=
  { id := 1, phone := "+2", name := none, visits_count := 20
    confirmed_bookings_count := 0, segment := "VIP", last_visit_at := some 5
    updated_at := some 50, deleted_at := none }

/-- Bookings for `sampleGuest`: ids 1, 3, 4 confirmed (times 10, 30, 20),
id 2 canceled, id 5 confirmed but for another guest. -/
def sampleBookings : List Booking :=
  [ { id := 1, guest_id := 1, status := "confirmed", booking_time := 10 }
  , { id := 2, guest_id := 1, status := "canceled", booking_time := 99 }
  , { id := 3, guest_id := 1, status := "confirmed", booking_time := 30 }
  , { id := 4, guest_id := 1, status := "confirmed", booking_time := 20 }
  , { id := 5, guest_id := 2, status := "confirmed", booking_time := 77 } ]

/-- A database with `sampleGuest`, its bookings, and default thresholds. -/
def sampleDB : DB :=
  { guests := [sampleGuest], bookings := sampleBookings, visits := []
    settings := { regular_raw := RawVal.absent, vip_raw := RawVal.absent } }

/-- Witness for C1 on `sampleDB`: guest 1 has 3 confirmed bookings with
maximum time 30. -/
theorem C1_recalc_policyA_witness :
    ∃ g', (recalc_guest_metrics_from_bookings sampleDB 1 200).guests[0]? =
        some g' ∧
      g'.visits_count = ((confirmedBookings sampleDB 1).length : Int) ∧
      g'.last_visit_at =
        ((confirmedBookings sampleDB 1).map Booking.booking_time).max? ∧
      ((confirmedBookings sampleDB 1).length = 0 → g'.last_visit_at = none) ∧
      g'.segment = calc_segment ((confirmedBookings sampleDB 1).length : Int)
        (get_segment_thresholds sampleDB.settings).1
        (get_segment_thresholds sampleDB.settings).2 :=
  C1_recalc_policyA sampleDB 1 200 0 sampleGuest rfl rfl

/-- C5: when no guest record matches the identifier, recalculation is a
silent no-op: the whole database state, in particular every guest record,
is unchanged (and the embedding is a total function, so no error). -/
theorem C5_recalc_missing_guest_noop (db : DB) (gid now : Int)
    (h : ∀ g ∈ db.guests, g.id ≠ gid) :
    recalc_guest_metrics_from_bookings db gid now = db := by
  have hfind : db.guests.find? (fun g => g.id == gid) = none :=
    List.find?_eq_none.mpr (fun g hg => by simp [h g hg])
  simp [recalc_guest_metrics_from_bookings, hfind]

/-- Witness for C5: guest id 2 has bookings in `sampleDB` but no guest row,
and recalculation for id 2 leaves the database unchanged. -/
theorem C5_recalc_missing_guest_noop_witness :
    recalc_guest_metrics_from_bookings sampleDB 2 200 = sampleDB :=
  C5_recalc_missing_guest_noop sampleDB 2 200 (by decide)

/-- C10: single-guest recalculation does not check the soft-delete marker:
a guest row whose `deleted_at` is set is still overwritten exactly like an
active one (`deleted_at` itself is carried over unchanged), while only the
bulk reconciler filters on `deleted_at`. -/
theorem C10_recalc_ignores_soft_delete (db : DB) (gid now : Int) (i : Nat)
    (g : Guest) (hg : db.guests[i]? = some g) (hid : g.id = gid)
    (_hdel : g.deleted_at.isSome) :
    (recalc_guest_metrics_from_bookings db gid now).guests[i]? =
      some { g with
        visits_count := ((confirmedBookings db gid).length : Int)
        updated_at := some now
        last_visit_at :=
          ((confirmedBookings db gid).map Booking.booking_time).max?
        segment := calc_segment ((confirmedBookings db gid).length : Int)
          (get_segment_thresholds db.settings).1
          (get_segment_thresholds db.settings).2 } :=
  recalc_getElem?_eq db gid now i g hg hid

/-- A soft-deleted guest row. -/
def deletedGuest : Guest :=
  { id := 3, phone := "+3", name := none, visits_count := 4
    confirmed_bookings_count := 0, segment := "Новичок", last_visit_at := none
    updated_at := some 41, deleted_at := some 40 }

/-- A database whose only guest is soft-deleted and has one confirmed
booking. -/
def deletedGuestDB : DB :=
  { guests := [deletedGuest]
    bookings :=
      [ { id := 1, guest_id := 3, status := "confirmed", booking_time := 15 } ]
    visits := []
    settings := { regular_raw := RawVal.absent, vip_raw := RawVal.absent } }

/-- Witness for C10: the soft-deleted guest of `deletedGuestDB` is rewritten
by recalculation. -/
theorem C10_recalc_ignores_soft_delete_witness :
    (recalc_guest_metrics_from_bookings deletedGuestDB 3 77).guests[0]? =
      some { deletedGuest with
        visits_count := ((confirmedBookings deletedGuestDB 3).length : Int)
        updated_at := some 77
        last_visit_at :=
          ((confirmedBookings deletedGuestDB 3).map Booking.booking_time).max?
        segment := calc_segment
          ((confirmedBookings deletedGuestDB 3).length : Int)
          (get_segment_thresholds deletedGuestDB.settings).1
          (get_segment_thresholds deletedGuestDB.settings).2 } :=
  C10_recalc_ignores_soft_delete deletedGuestDB 3 77 0 deletedGuest rfl rfl
    (by decide)

/-- The per-row effect of a successful recalculation: the row with the
looked-up id is overwritten via `recalcUpdate`, every other row is kept. -/
def recalcStep (db : DB) (gid now : Int) (g : Guest) : Guest :=
  if g.id == gid then
    recalcUpdate ((confirmedBookings db gid).length)
      (((confirmedBookings db gid).map Booking.booking_time).max?)
      (get_segment_thresholds db.settings).1
      (get_segment_thresholds db.settings).2 now g
  else g

/-- Unfolding of `recalc_guest_metrics_from_bookings` when the guest lookup
succeeds. -/
theorem recalc_eq_of_found (db : DB) (gid now : Int)
    (h : (db.guests.find? (fun g => g.id == gid)).isSome) :
    recalc_guest_metrics_from_bookings db gid now =
      { db with guests := db.guests.map (fun g => recalcStep db gid now g) } := by
  simp only [recalc_guest_metrics_from_bookings, recalcStep, h, if_true]

/-- Unfolding of `recalc_guest_metrics_from_bookings` when the guest lookup
fails. -/
theorem recalc_eq_of_not_found (db : DB) (gid now : Int)
    (h : db.guests.find? (fun g => g.id == gid) = none) :
    recalc_guest_metrics_from_bookings db gid now = db := by
  simp [recalc_guest_metrics_from_bookings, h]

/-- Mapping an id-preserving function over the guest table does not change
whether a lookup by id succeeds. -/
theorem find?_id_isSome_map (l : List Guest) (f : Guest → Guest)
    (hf : ∀ g, (f g).id = g.id) (gid : Int) :
    ((l.map f).find? (fun g => g.id == gid)).isSome =
      (l.find? (fun g => g.id == gid)).isSome := by
  apply Bool.coe_iff_coe.mp
  simp only [List.find?_isSome, List.mem_map]
  constructor
  · rintro ⟨x, ⟨y, hy, rfl⟩, hx⟩
    exact ⟨y, hy, by simpa [hf y] using hx⟩
  · rintro ⟨y, hy, hx⟩
    exact ⟨f y, ⟨y, hy, rfl⟩, by simpa [hf y] using hx⟩

/-- `confirmedBookings` only reads the bookings table. -/
theorem confirmedBookings_set_guests (db : DB) (gs : List Guest) (gid : Int) :
    confirmedBookings { db with guests := gs } gid = confirmedBookings db gid :=
  rfl

/-- Replacing the guest table twice keeps only the second replacement. -/
theorem set_guests_set_guests (db : DB) (a b : List Guest) :
    ({ ({ db with guests := a } : DB) with guests := b } : DB) =
      { db with guests := b } :=
  rfl

/-- The original C6 claim is false on the code: with no intervening change to
bookings or thresholds, a second recalculation at a later clock reading
yields a different guest state, because `updated_at` is overwritten with the
current time on every call. -/
theorem C6_counterexample :
    recalc_guest_metrics_from_bookings
        (recalc_guest_metrics_from_bookings
          { guests := [{ id := 1, phone := "p", name := none, visits_count := 0
                         confirmed_bookings_count := 0, segment := "Новичок"
                         last_visit_at := none, updated_at := none
                         deleted_at := none }]
            bookings := [], visits := []
            settings := { regular_raw := RawVal.absent
                          vip_raw := RawVal.absent } } 1 0) 1 1 ≠
      recalc_guest_metrics_from_bookings
        { guests := [{ id := 1, phone := "p", name := none, visits_count := 0
                       confirmed_bookings_count := 0, segment := "Новичок"
                       last_visit_at := none, updated_at := none
                       deleted_at := none }]
          bookings := [], visits := []
          settings := { regular_raw := RawVal.absent
                        vip_raw := RawVal.absent } } 1 0 := by
  decide

/-- C6 (amended): recalculating twice in a row with no intervening change to
the guest's bookings or the thresholds gives, after the second call, exactly
the state a single recalculation at the second call's clock reading would
produce; in particular, when the two calls observe the same clock value the
two post-states are fully identical, and all fields other than `updated_at`
agree after each of the two calls. -/
theorem C6_recalc_second_call_eq_single (db : DB) (gid t1 t2 : Int) :
    recalc_guest_metrics_from_bookings
        (recalc_guest_metrics_from_bookings db gid t1) gid t2 =
      recalc_guest_metrics_from_bookings db gid t2 := by
  rcases hfind : db.guests.find? (fun g => g.id == gid) with _ | g0
  · rw [recalc_eq_of_not_found db gid t1 hfind]
  · have h : (db.guests.find? (fun g => g.id == gid)).isSome := by
      rw [hfind]; rfl
    rw [recalc_eq_of_found db gid t1 h]
    have hf : ∀ g : Guest, (recalcStep db gid t1 g).id = g.id := by
      intro g; unfold recalcStep; split <;> rfl
    have h2 : (((db.guests.map (fun g => recalcStep db gid t1 g))).find?
        (fun g => g.id == gid)).isSome := by
      rw [find?_id_isSome_map _ _ hf]
      exact h
    rw [recalc_eq_of_found _ gid t2 h2, recalc_eq_of_found db gid t2 h]
    have hstep : ∀ g : Guest,
        recalcStep
            ({ db with guests :=
                db.guests.map (fun g => recalcStep db gid t1 g) } : DB)
            gid t2 g =
          recalcStep db gid t2 g := fun _ => rfl
    simp only [hstep, set_guests_set_guests]
    congr 1
    rw [List.map_map]
    apply List.map_congr_left
    intro g _
    simp only [Function.comp_apply]
    unfold recalcStep
    by_cases hb : g.id = gid
    · simp [hb, recalcUpdate]
    · simp [hb]

/-- `reconcileStep` never touches `visits_count`. -/
theorem reconcileStep_visits_count (reg vip : Int) (g : Guest) :
    ((reconcileStep reg vip g).1).visits_count = g.visits_count := by
  simp only [reconcileStep]; split <;> rfl

/-- `reconcileStep` never touches `deleted_at`. -/
theorem reconcileStep_deleted_at (reg vip : Int) (g : Guest) :
    ((reconcileStep reg vip g).1).deleted_at = g.deleted_at := by
  simp only [reconcileStep]; split <;> rfl

/-- `reconcileStep` never touches `updated_at`. -/
theorem reconcileStep_updated_at (reg vip : Int) (g : Guest) :
    ((reconcileStep reg vip g).1).updated_at = g.updated_at := by
  simp only [reconcileStep]; split <;> rfl

/-- Python `or`-defaulting is the identity on classifier output, because the
classifier never returns the empty string. -/
theorem segmentOrDefault_calc_segment (v reg vip : Int) :
    segmentOrDefault (calc_segment v reg vip) = calc_segment v reg vip := by
  simp [segmentOrDefault, calc_segment_ne_empty v reg vip]

/-- After one `reconcileStep`, the guest's stored segment agrees with the
classifier, so a second `reconcileStep` reports no change. -/
theorem reconcileStep_second_unchanged (reg vip : Int) (g : Guest) :
    (reconcileStep reg vip ((reconcileStep reg vip g).1)).2 = false := by
  by_cases hc : segmentOrDefault g.segment ≠
      calc_segment (visitsOrZero g.visits_count) reg vip
  · simp only [reconcileStep]
    rw [if_pos hc]
    simp [segmentOrDefault_calc_segment]
  · simp only [reconcileStep]
    rw [if_neg hc]
    simp [hc]

/-- C7: after one run of the bulk segment reconciler, an immediately
following second run with no intervening change to guests or thresholds
reports `updated = 0`. -/
theorem C7_reconcile_second_run_updates_nothing (db : DB) :
    (recalc_segments (recalc_segments db).db).updated = 0 := by
  simp only [recalc_segments]
  rw [List.length_eq_zero, List.filter_eq_nil_iff]
  intro g' hg'
  obtain ⟨g, _, rfl⟩ := List.mem_map.mp hg'
  by_cases hd : g.deleted_at.isNone
  · rw [if_pos hd]
    simp [reconcileStep_deleted_at, hd, reconcileStep_second_unchanged]
  · rw [if_neg hd]
    simp only [Bool.not_eq_true] at hd
    simp [hd]

/-- C8: the bulk reconciler leaves every soft-deleted guest row unchanged
(first conjunct), and a soft-deleted guest contributes neither to the
examined `total` nor to `updated`, regardless of any mismatch between its
`visits_count` and stored `segment` (adding such a guest to the population
changes neither number). -/
theorem C8_reconcile_excludes_soft_deleted (db : DB) (g : Guest)
    (hdel : g.deleted_at.isSome) :
    (∀ i : Nat, db.guests[i]? = some g →
      (recalc_segments db).db.guests[i]? = some g) ∧
    (recalc_segments { db with guests := db.guests ++ [g] }).total =
      (recalc_segments db).total ∧
    (recalc_segments { db with guests := db.guests ++ [g] }).updated =
      (recalc_segments db).updated := by
  have hnone : g.deleted_at.isNone = false := by
    cases hx : g.deleted_at with
    | none => rw [hx] at hdel; exact absurd hdel (by simp)
    | some d => rfl
  refine ⟨?_, ?_, ?_⟩
  · intro i hi
    simp only [recalc_segments, List.getElem?_map, hi]
    simp [hnone]
    intro h
    simp [h] at hdel
  · simp only [recalc_segments, List.filter_append]
    simp [hnone]
  · simp only [recalc_segments, List.filter_append]
    simp [hnone]

/-- Witness for C8 on `deletedGuestDB`, whose only guest is soft-deleted. -/
theorem C8_reconcile_excludes_soft_deleted_witness :
    (recalc_segments deletedGuestDB).db.guests[0]? = some deletedGuest ∧
    (recalc_segments { deletedGuestDB with
        guests := deletedGuestDB.guests ++ [deletedGuest] }).total =
      (recalc_segments deletedGuestDB).total ∧
    (recalc_segments { deletedGuestDB with
        guests := deletedGuestDB.guests ++ [deletedGuest] }).updated =
      (recalc_segments deletedGuestDB).updated :=
  ⟨(C8_reconcile_excludes_soft_deleted deletedGuestDB deletedGuest
      (by decide)).1 0 rfl,
   (C8_reconcile_excludes_soft_deleted deletedGuestDB deletedGuest
      (by decide)).2.1,
   (C8_reconcile_excludes_soft_deleted deletedGuestDB deletedGuest
      (by decide)).2.2⟩

/-- A non-deleted guest whose stored segment ("Новичок") disagrees with the
classifier result for its `visits_count = 10` under default thresholds. -/
def staleGuest : Guest :=
  { id := 7, phone := "+7", name := none, visits_count := 10
    confirmed_bookings_count := 0, segment := "Новичок", last_visit_at := none
    updated_at := some 50, deleted_at := none }

/-- A database containing only `staleGuest`, with default thresholds. -/
def staleDB : DB :=
  { guests := [staleGuest], bookings := [], visits := []
    settings := { regular_raw := RawVal.absent, vip_raw := RawVal.absent } }

/-- The original C9 claim is false on the code: the bulk reconciler mutates
`staleGuest`'s `segment` (from "Новичок" to "VIP") yet leaves `updated_at`
at its old value `some 50` — it does not set `updated_at` at all (it takes
no clock reading), so not every guest-mutating core operation stamps
`updated_at`. -/
theorem C9_counterexample :
    (recalc_segments staleDB).updated = 1 ∧
    (recalc_segments staleDB).db.guests[0]? =
      some { staleGuest with segment := "VIP" } ∧
    staleGuest.segment ≠ "VIP" ∧
    ({ staleGuest with segment := "VIP" } : Guest).updated_at = some 50 := by
  refine ⟨by decide, by decide, by decide, rfl⟩

/-- C9 (amended): the single-guest recalculator and the add-visit operation
set the mutated guest's `updated_at` to the current time whenever they change
a guest row, but the bulk reconciler is an exception: it never changes any
guest's `updated_at`, even when it rewrites the guest's `segment`. -/
theorem C9_updated_at_stamping :
    (∀ (db : DB) (gid now : Int) (i : Nat) (g g' : Guest),
      db.guests[i]? = some g →
      (recalc_guest_metrics_from_bookings db gid now).guests[i]? = some g' →
      g' ≠ g → g'.updated_at = some now) ∧
    (∀ (db db' : DB) (gid now : Int) (i : Nat) (g g' : Guest),
      add_guest_visit db gid now = some db' →
      db.guests[i]? = some g → db'.guests[i]? = some g' →
      g' ≠ g → g'.updated_at = some now) ∧
    (∀ (db : DB) (i : Nat) (g g' : Guest),
      db.guests[i]? = some g →
      (recalc_segments db).db.guests[i]? = some g' →
      g'.updated_at = g.updated_at) := by
  refine ⟨?_, ?_, ?_⟩
  · intro db gid now i g g' hg hg' hne
    rcases hfind : db.guests.find? (fun x => x.id == gid) with _ | g0
    · rw [recalc_eq_of_not_found db gid now hfind, hg] at hg'
      exact absurd (Option.some.inj hg').symm hne
    · have hf : (db.guests.find? (fun x => x.id == gid)).isSome := by
        rw [hfind]; rfl
      rw [recalc_eq_of_found db gid now hf] at hg'
      simp only [List.getElem?_map, hg] at hg'
      have hg'' : recalcStep db gid now g = g' := Option.some.inj hg'
      by_cases hb : g.id = gid
      · rw [← hg'']
        simp [recalcStep, hb, recalcUpdate]
      · rw [← hg''] at hne
        exact absurd (by simp [recalcStep, hb]) hne
  · intro db db' gid now i g g' hadd hg hg' hne
    unfold add_guest_visit at hadd
    split at hadd
    · exact Option.noConfusion hadd
    · split at hadd
      · exact Option.noConfusion hadd
      · simp only [Option.some.injEq] at hadd
        subst hadd
        simp only [List.getElem?_map, hg] at hg'
        have hg'' := Option.some.inj hg'
        by_cases hb : g.id = gid
        · rw [← hg'']
          simp [hb]
        · rw [← hg''] at hne
          exact absurd (by simp [hb]) hne
  · intro db i g g' hg hg'
    simp only [recalc_segments, List.getElem?_map, hg] at hg'
    have hg'' := Option.some.inj hg'
    rw [← hg'']
    dsimp only
    split
    · exact reconcileStep_updated_at _ _ g
    · rfl

/-- The database produced by `add_guest_visit sampleDB 1 300`. -/
def sampleVisitDB : DB :=
  { guests := [{ sampleGuest with
                 visits_count := 1, segment := "Новичок"
                 last_visit_at := some 300, updated_at := some 300 }]
    bookings := sampleBookings
    visits := [{ booking_id := none, guest_id := 1, arrived_at := 300
                 left_at := none, revenue := none, admin_notes := none
                 created_at := some 300 }]
    settings := { regular_raw := RawVal.absent, vip_raw := RawVal.absent } }

/-- Witness for the amended C9 at concrete databases: a recalculation at time
200, an add-visit at time 300, and a bulk reconciliation that leaves
`updated_at` at `some 50`. -/
theorem C9_updated_at_stamping_witness :
    ({ sampleGuest with
        visits_count := 3, segment := "Новичок"
        last_visit_at := some 30, updated_at := some 200 } : Guest).updated_at =
      some 200 ∧
    ({ sampleGuest with
        visits_count := 1, segment := "Новичок"
        last_visit_at := some 300, updated_at := some 300 } : Guest).updated_at =
      some 300 ∧
    ({ staleGuest with segment := "VIP" } : Guest).updated_at =
      staleGuest.updated_at :=
  ⟨C9_updated_at_stamping.1 sampleDB 1 200 0 sampleGuest _ rfl (by decide)
      (by decide),
   C9_updated_at_stamping.2.1 sampleDB sampleVisitDB 1 300 0 sampleGuest _
      (by decide) rfl (by decide) (by decide),
   C9_updated_at_stamping.2.2 staleDB 0 staleGuest _ rfl (by decide)⟩

/-- C4 is contradicted by the implementation: on a guest with 3 confirmed
bookings, `recalc_guest_metrics_from_bookings` (the recalculation invoked by
the booking-status-change endpoint) overwrites `visits_count` (20 → 3) and
`segment` ("VIP" → "Новичок") and leaves `confirmed_bookings_count` at 0
instead of the confirmed count 3 — the exact opposite of the Policy B
behaviour stated by the claim and by the endpoint's own docstring. -/
theorem C4_recalc_contradicts_documented_policyB :
    (recalc_guest_metrics_from_bookings sampleDB 1 200).guests[0]? =
      some { sampleGuest with
             visits_count := 3, segment := "Новичок"
             last_visit_at := some 30, updated_at := some 200 } ∧
    sampleGuest.visits_count = 20 ∧
    sampleGuest.segment = "VIP" ∧
    ((confirmedBookings sampleDB 1).length : Int) = 3 ∧
    ({ sampleGuest with
        visits_count := 3, segment := "Новичок"
        last_visit_at := some 30, updated_at := some 200 } :
      Guest).confirmed_bookings_count = 0 := by
  refine ⟨by decide, rfl, rfl, by decide, rfl⟩
